import Mathlib

/-!
Verification of the nav_simulator core (src/nav_sim_core.cpp).

C++ doubles are modelled as real numbers. The tf2 library routines used by
the code (Quaternion::setRPY, Matrix3x3::setRotation, Matrix3x3::getRPY,
Transform composition and inverse) are modelled from their reference
implementations. The per-call standard normal draws of simTransferError are
passed in as explicit parameters, and the elapsed time between two timer
callbacks is a parameter dt.
-/

open Real

noncomputable section

namespace NavSim

/-- The simulated robot pose, fields x_, y_, yaw_ of the C++ State struct. -/
structure State where
  x : ℝ
  y : ℝ
  yaw : ℝ
  deriving DecidableEq

/-- The commanded velocity: cmd_vel_.linear.x and cmd_vel_.angular.z. -/
structure Twist where
  v : ℝ
  w : ℝ

/-- A landmark from the YAML registry.  The header of the repository is not
part of src/, so the Landmark struct itself is modelled from the spec: it
carries landmark_id_, x_, y_; convertToPose additionally reads a yaw_ field,
which parseYaml never writes, so it is kept here as an arbitrary value and
all theorems hold for every value of it. -/
structure Landmark where
  landmark_id : String
  x : ℝ
  y : ℝ
  yaw : ℝ

/-- A tf2 quaternion, components x y z w. -/
structure Quat where
  x : ℝ
  y : ℝ
  z : ℝ
  w : ℝ

/-- tf2 Quaternion::length2, the squared norm. -/
def Quat.length2 (q : Quat) : ℝ :=
  q.x * q.x + q.y * q.y + q.z * q.z + q.w * q.w

/-- tf2 Quaternion::setRPY, modelled from the tf2 reference implementation. -/
def setRPY (roll pitch yaw : ℝ) : Quat :=
  let halfYaw := yaw * 0.5
  let halfPitch := pitch * 0.5
  let halfRoll := roll * 0.5
  let cosYaw := Real.cos halfYaw
  let sinYaw := Real.sin halfYaw
  let cosPitch := Real.cos halfPitch
  let sinPitch := Real.sin halfPitch
  let cosRoll := Real.cos halfRoll
  let sinRoll := Real.sin halfRoll
  { x := sinRoll * cosPitch * cosYaw - cosRoll * sinPitch * sinYaw
    y := cosRoll * sinPitch * cosYaw + sinRoll * cosPitch * sinYaw
    z := cosRoll * cosPitch * sinYaw - sinRoll * sinPitch * cosYaw
    w := cosRoll * cosPitch * cosYaw + sinRoll * sinPitch * sinYaw }

/-- A 3d vector (tf2 Vector3). -/
structure Vec3 where
  x : ℝ
  y : ℝ
  z : ℝ

def Vec3.add (a b : Vec3) : Vec3 :=
  ⟨a.x + b.x, a.y + b.y, a.z + b.z⟩

def Vec3.neg (a : Vec3) : Vec3 :=
  ⟨-a.x, -a.y, -a.z⟩

/-- A 3x3 matrix (tf2 Matrix3x3), row-major entries. -/
structure Mat3 where
  m00 : ℝ
  m01 : ℝ
  m02 : ℝ
  m10 : ℝ
  m11 : ℝ
  m12 : ℝ
  m20 : ℝ
  m21 : ℝ
  m22 : ℝ

/-- tf2 Matrix3x3::setRotation, modelled from the tf2 reference
implementation (the Matrix3x3 constructor from a Quaternion calls it). -/
def Mat3.setRotation (q : Quat) : Mat3 :=
  let d := q.length2
  let s := 2 / d
  let xs := q.x * s
  let ys := q.y * s
  let zs := q.z * s
  let wx := q.w * xs
  let wy := q.w * ys
  let wz := q.w * zs
  let xx := q.x * xs
  let xy := q.x * ys
  let xz := q.x * zs
  let yy := q.y * ys
  let yz := q.y * zs
  let zz := q.z * zs
  { m00 := 1 - (yy + zz), m01 := xy - wz, m02 := xz + wy
    m10 := xy + wz, m11 := 1 - (xx + zz), m12 := yz - wx
    m20 := xz - wy, m21 := yz + wx, m22 := 1 - (xx + yy) }

def Mat3.transpose (m : Mat3) : Mat3 :=
  ⟨m.m00, m.m10, m.m20, m.m01, m.m11, m.m21, m.m02, m.m12, m.m22⟩

def Mat3.mulVec (m : Mat3) (v : Vec3) : Vec3 :=
  ⟨m.m00 * v.x + m.m01 * v.y + m.m02 * v.z,
   m.m10 * v.x + m.m11 * v.y + m.m12 * v.z,
   m.m20 * v.x + m.m21 * v.y + m.m22 * v.z⟩

def Mat3.mul (a b : Mat3) : Mat3 :=
  ⟨a.m00 * b.m00 + a.m01 * b.m10 + a.m02 * b.m20,
   a.m00 * b.m01 + a.m01 * b.m11 + a.m02 * b.m21,
   a.m00 * b.m02 + a.m01 * b.m12 + a.m02 * b.m22,
   a.m10 * b.m00 + a.m11 * b.m10 + a.m12 * b.m20,
   a.m10 * b.m01 + a.m11 * b.m11 + a.m12 * b.m21,
   a.m10 * b.m02 + a.m11 * b.m12 + a.m12 * b.m22,
   a.m20 * b.m00 + a.m21 * b.m10 + a.m22 * b.m20,
   a.m20 * b.m01 + a.m21 * b.m11 + a.m22 * b.m21,
   a.m20 * b.m02 + a.m21 * b.m12 + a.m22 * b.m22⟩

/-- A rigid transform (tf2 Transform): rotation basis plus origin. -/
structure Transform where
  basis : Mat3
  origin : Vec3

/-- tf2 Transform composition: basis product, and the first transform
applied to the origin of the second one. -/
def Transform.mul (a b : Transform) : Transform :=
  ⟨a.basis.mul b.basis, (a.basis.mulVec b.origin).add a.origin⟩

/-- tf2 Transform::inverse: transposed basis, applied to the negated
origin. -/
def Transform.inverse (t : Transform) : Transform :=
  ⟨t.basis.transpose, t.basis.transpose.mulVec t.origin.neg⟩

/-- The essentials of a geometry_msgs PoseStamped: position plus
orientation quaternion. -/
structure Pose where
  x : ℝ
  y : ℝ
  z : ℝ
  ori : Quat

/-- NavSim::convertToPose, applied to a PoseType exposing fields
x_, y_, yaw_: position (x, y, 0) and orientation setRPY(0, 0, yaw). -/
def convertToPose (x y yaw : ℝ) : Pose :=
  { x := x, y := y, z := 0, ori := setRPY 0 0 yaw }

/-- NavSim::convertToTransform: origin from the pose position, rotation
basis from the pose quaternion. -/
def convertToTransform (p : Pose) : Transform :=
  { basis := Mat3.setRotation p.ori, origin := ⟨p.x, p.y, p.z⟩ }

/-- The kinematic integration step of NavSim::timerCallback (lines 44 to 46):
yaw is updated first and the updated yaw is used in the position update. -/
def kinematicStep (s : State) (v w dt : ℝ) : State :=
  let yaw := s.yaw + w * dt
  { x := s.x + v * Real.cos yaw * dt
    y := s.y + v * Real.sin yaw * dt
    yaw := yaw }

/-- NavSim::simTransferError with the three standard normal draws passed
in as parameters n1 n2 n3 (the C++ draws them from a freshly seeded
default_random_engine). -/
def simTransferError (error_coeff n1 n2 n3 : ℝ) (s : State) : State :=
  { x := s.x + error_coeff * n1
    y := s.y + error_coeff * n2
    yaw := s.yaw + error_coeff * n3 }

/-- The whole mutable simulator state of the NavSim class: state_, v_, w_,
cmd_vel_, landmark_pose_list_, error_coeff_. -/
structure SimState where
  state : State
  v : ℝ
  w : ℝ
  cmd : Twist
  landmarks : List Landmark
  error_coeff : ℝ

/-- NavSim::planVelocity: proportional control toward the commanded
velocity with gain 1.0, computed from the current tracked velocity. -/
def planVelocity (sim : SimState) : ℝ × ℝ :=
  (1.0 * (sim.cmd.v - sim.v), 1.0 * (sim.cmd.w - sim.w))

/-- The relative path point of one landmark: the translation component of
inverse(map_to_base) * map_to_landmark, as in the loop body of
NavSim::timerCallback. -/
def relPoint (robotPose : Pose) (lm : Landmark) : ℝ × ℝ :=
  let map_to_base := convertToTransform robotPose
  let map_to_landmark := convertToTransform (convertToPose lm.x lm.y lm.yaw)
  let base_to_landmark := map_to_base.inverse.mul map_to_landmark
  (base_to_landmark.origin.x, base_to_landmark.origin.y)

/-- The path built by the landmark loop of NavSim::timerCallback: for each
landmark, in registry order, the robot origin (0, 0) and then the landmark
point in the robot frame. -/
def buildPath (robotPose : Pose) : List Landmark → List (ℝ × ℝ)
  | [] => []
  | lm :: rest => ((0 : ℝ), (0 : ℝ)) :: relPoint robotPose lm :: buildPath robotPose rest

/-- One tick of NavSim::timerCallback as a function of the elapsed time dt
and the three noise draws: plan the velocity from the pre-integration
tracked velocity, integrate the pose, perturb it, convert it to the
published pose, update the tracked velocity, and build the relative path.
Returns the new simulator state, the published pose and the path. -/
def timerCallback (sim : SimState) (dt n1 n2 n3 : ℝ) :
    SimState × Pose × List (ℝ × ℝ) :=
  let plan := planVelocity sim
  let s1 := kinematicStep sim.state sim.v sim.w dt
  let s2 := simTransferError sim.error_coeff n1 n2 n3 s1
  let pose := convertToPose s2.x s2.y s2.yaw
  let v2 := sim.v + plan.1 * dt
  let w2 := sim.w + plan.2 * dt
  let path := buildPath pose sim.landmarks
  ({ sim with state := s2, v := v2, w := w2 }, pose, path)

/-- The atan2 of the C standard library, modelled as the argument of the
complex number with real part x and imaginary part y. -/
def atan2 (y x : ℝ) : ℝ :=
  Complex.arg ⟨x, y⟩

/-- tf2 Matrix3x3::getRPY (solution number 1), modelled from the tf2
reference implementation of getEulerYPR; returns (roll, pitch, yaw). -/
def getRPY (m : Mat3) : ℝ × ℝ × ℝ :=
  if 1 ≤ |m.m20| then
    if m.m20 < 0 then (atan2 m.m01 m.m02, π / 2, 0)
    else (atan2 (-m.m01) (-m.m02), -(π / 2), 0)
  else
    let pitch := -(Real.arcsin m.m20)
    let roll := atan2 (m.m21 / Real.cos pitch) (m.m22 / Real.cos pitch)
    let yaw := atan2 (m.m10 / Real.cos pitch) (m.m00 / Real.cos pitch)
    (roll, pitch, yaw)

/-- NavSim::callbackInitialpose: overwrite x and y of state_ with the
message position and yaw with the RPY yaw extracted from the message
quaternion; nothing else is written. -/
def callbackInitialpose (sim : SimState) (px py : ℝ) (q : Quat) : SimState :=
  let mat := Mat3.setRotation q
  let rpy := getRPY mat
  { sim with state := { x := px, y := py, yaw := rpy.2.2 } }

/-- Iterated ticks with a fixed dt, under a per-tick noise draw sequence. -/
def simIter (dt : ℝ) (noise : ℕ → ℝ × ℝ × ℝ) (sim : SimState) : ℕ → SimState
  | 0 => sim
  | n + 1 =>
    let prev := simIter dt noise sim n
    (timerCallback prev dt (noise n).1 (noise n).2.1 (noise n).2.2).1

/-! ### Interleaving model of the timer callback and the pose reset handler

The timer callback and the initial pose callback may run on different
threads.  The mutex m_ is modelled by a lock owner; the statements of the
two functions that touch the shared State are modelled as atomic steps,
in program order.  NavSim::callbackInitialpose acquires m_ around its
three writes; NavSim::timerCallback contains no lock acquisition at all,
which is exactly what its step list records. -/

/-- The two threads that touch the shared State. -/
inductive ThreadId where
  | tick
  | reset
  deriving DecidableEq

/-- One atomic access in either callback: lock operations of the mutex m_,
the read-modify-write statements of the tick (pose integration lines 44 to
46 and the three noise additions of simTransferError), the full read of
state_ performed by convertToPose at line 52, and the three writes of the
pose reset handler. -/
inductive AtomicStep where
  | acquire
  | release
  | updateYaw (w dt : ℝ)
  | updateX (v dt : ℝ)
  | updateY (v dt : ℝ)
  | noiseX (c n : ℝ)
  | noiseY (c n : ℝ)
  | noiseYaw (c n : ℝ)
  | snapshot
  | setX (a : ℝ)
  | setY (a : ℝ)
  | setYaw (a : ℝ)

/-- Effect of a non-lock, non-snapshot step on the shared State. -/
def applyStep (s : State) : AtomicStep → State
  | .updateYaw w dt => { s with yaw := s.yaw + w * dt }
  | .updateX v dt => { s with x := s.x + v * Real.cos s.yaw * dt }
  | .updateY v dt => { s with y := s.y + v * Real.sin s.yaw * dt }
  | .noiseX c n => { s with x := s.x + c * n }
  | .noiseY c n => { s with y := s.y + c * n }
  | .noiseYaw c n => { s with yaw := s.yaw + c * n }
  | .setX a => { s with x := a }
  | .setY a => { s with y := a }
  | .setYaw a => { s with yaw := a }
  | _ => s

/-- The State accesses of NavSim::timerCallback in program order.  No
acquire appears: the function never locks m_. -/
def tickSteps (v w dt c n1 n2 n3 : ℝ) : List AtomicStep :=
  [.updateYaw w dt, .updateX v dt, .updateY v dt,
   .noiseX c n1, .noiseY c n2, .noiseYaw c n3, .snapshot]

/-- The State accesses of NavSim::callbackInitialpose in program order:
the lock_guard acquires m_, the three components are written, and the
lock_guard releases m_ on scope exit. -/
def resetSteps (mx my myaw : ℝ) : List AtomicStep :=
  [.acquire, .setX mx, .setY my, .setYaw myaw, .release]

/-- A configuration of the two-thread system: the shared State, the owner
of the mutex m_, the last full State read by the tick (none before the
read happens), and the remaining program of each thread. -/
structure Config where
  shared : State
  owner : Option ThreadId
  observed : Option State
  tickProg : List AtomicStep
  resetProg : List AtomicStep

/-- One scheduler step: run the next atomic step of the given thread.
Acquiring is only possible when the mutex is free, releasing only by the
owner; a blocked or finished thread cannot step. -/
def step (c : Config) (t : ThreadId) : Option Config :=
  let prog := match t with
    | .tick => c.tickProg
    | .reset => c.resetProg
  match prog with
  | [] => none
  | a :: rest =>
    let store (c2 : Config) : Config :=
      match t with
      | .tick => { c2 with tickProg := rest }
      | .reset => { c2 with resetProg := rest }
    match a with
    | .acquire =>
      match c.owner with
      | none => some (store { c with owner := some t })
      | some _ => none
    | .release =>
      if c.owner = some t then some (store { c with owner := none }) else none
    | .snapshot => some (store { c with observed := some c.shared })
    | a2 => some (store { c with shared := applyStep c.shared a2 })

/-- Run a schedule (a list of thread choices) from a configuration;
none when the schedule is invalid (a blocked or finished thread chosen). -/
def run (sched : List ThreadId) (c : Config) : Option Config :=
  match sched with
  | [] => some c
  | t :: ts =>
    match step c t with
    | none => none
    | some c2 => run ts c2

/-- The initial configuration: shared State s0, mutex free, nothing
observed yet, the tick and the reset handler both about to run. -/
def initConfig (s0 : State) (v w dt c n1 n2 n3 mx my myaw : ℝ) : Config :=
  { shared := s0, owner := none, observed := none,
    tickProg := tickSteps v w dt c n1 n2 n3,
    resetProg := resetSteps mx my myaw }

/-- The property claimed for the concurrent composition: whatever the
interleaving, once both callbacks have run to completion the State read by
the tick is either entirely pre-reset or entirely post-reset, never a torn
mix of both.  It is stated for instances in which every write of the tick
itself preserves the State value (velocities and noise zero), so that the
only two untorn outcomes of the read are the initial State and the State
written by the reset handler. -/
def NoTornRead (s0 : State) (v w dt c n1 n2 n3 mx my myaw : ℝ) : Prop :=
  ∀ sched cf, run sched (initConfig s0 v w dt c n1 n2 n3 mx my myaw) = some cf →
    cf.tickProg = [] → cf.resetProg = [] →
    ∀ ob, cf.observed = some ob → ob = s0 ∨ ob = ⟨mx, my, myaw⟩

end NavSim

end

namespace NavSim

/-! ### Theorems -/

/-- A tick does not change the commanded velocity. -/
theorem timerCallback_cmd_const (sim : SimState) (dt n1 n2 n3 : ℝ) :
    (timerCallback sim dt n1 n2 n3).1.cmd = sim.cmd := rfl

/-- The tracked linear velocity after one tick, in closed form. -/
theorem timerCallback_v_closed (sim : SimState) (dt n1 n2 n3 : ℝ) :
    (timerCallback sim dt n1 n2 n3).1.v =
      sim.v + 1.0 * (sim.cmd.v - sim.v) * dt := rfl

/-- Iterated ticks do not change the commanded velocity. -/
theorem simIter_cmd_const (dt : ℝ) (noise : ℕ → ℝ × ℝ × ℝ) (sim : SimState)
    (n : ℕ) : (simIter dt noise sim n).cmd = sim.cmd := by
  induction n with
  | zero => rfl
  | succ k ih =>
    simp only [simIter]
    rw [timerCallback_cmd_const]
    exact ih

/-- Recurrence of the tracked linear velocity across ticks. -/
theorem simIter_v_succ (dt : ℝ) (noise : ℕ → ℝ × ℝ × ℝ) (sim : SimState)
    (n : ℕ) :
    (simIter dt noise sim (n + 1)).v =
      (simIter dt noise sim n).v +
        (sim.cmd.v - (simIter dt noise sim n).v) * dt := by
  simp only [simIter]
  rw [timerCallback_v_closed, simIter_cmd_const]
  norm_num

/-- Under 0 <= dt < 1 the tracked linear velocity never exceeds the
commanded one. -/
theorem simIter_v_le (dt : ℝ) (noise : ℕ → ℝ × ℝ × ℝ) (sim : SimState)
    (_h0 : 0 ≤ dt) (h1 : dt < 1) (hv : sim.v ≤ sim.cmd.v) (n : ℕ) :
    (simIter dt noise sim n).v ≤ sim.cmd.v := by
  induction n with
  | zero => exact hv
  | succ k ih =>
    rw [simIter_v_succ]
    nlinarith [ih]

/-- C1: one kinematic integration step of the tick updates yaw first,
yaw2 = yaw + w*dt, and then uses the already updated yaw in the position
update, x2 = x + v*cos(yaw2)*dt and y2 = y + v*sin(yaw2)*dt; in particular
from State (0,0,0) with v = 1, w = pi/2, dt = 1 it yields x2 = 0, y2 = 1,
yaw2 = pi/2. -/
theorem kinematicStep_yaw_first (s : State) (v w dt : ℝ) :
    (kinematicStep s v w dt).yaw = s.yaw + w * dt ∧
    (kinematicStep s v w dt).x = s.x + v * Real.cos (s.yaw + w * dt) * dt ∧
    (kinematicStep s v w dt).y = s.y + v * Real.sin (s.yaw + w * dt) * dt ∧
    kinematicStep ⟨0, 0, 0⟩ 1 (π / 2) 1 = ⟨0, 1, π / 2⟩ := by
  refine ⟨rfl, rfl, rfl, ?_⟩
  have h : (0 : ℝ) + π / 2 * 1 = π / 2 := by ring
  simp [kinematicStep, h, Real.cos_pi_div_two, Real.sin_pi_div_two]

/-- C5: the kinematic integration step with dt = 0 returns the State
exactly unchanged, for every State and all velocities. -/
theorem kinematicStep_zero_dt (s : State) (v w : ℝ) :
    kinematicStep s v w 0 = s := by
  cases s
  simp [kinematicStep]

/-- C3: each tick computes the velocity targets by proportional control
with gain 1.0 from the pre-integration tracked velocity and the commanded
velocity, so the tracked velocity after the tick is
v2 = v + (cmd.v - v)*dt and w2 = w + (cmd.w - w)*dt. -/
theorem tick_velocity_update (sim : SimState) (dt n1 n2 n3 : ℝ) :
    (timerCallback sim dt n1 n2 n3).1.v = sim.v + (sim.cmd.v - sim.v) * dt ∧
    (timerCallback sim dt n1 n2 n3).1.w = sim.w + (sim.cmd.w - sim.w) * dt := by
  constructor <;>
    · simp only [timerCallback, planVelocity]
      norm_num

/-- C8: error injection only touches the x, y, yaw of the State: the
tracked velocity, the commanded velocity, the landmark registry and the
error coefficient after a tick do not depend on the noise draws; and with
error_coeff = 0 the State passes through simTransferError exactly
unchanged, whatever the draws. -/
theorem simTransferError_frame (s : State) (n1 n2 n3 : ℝ) (sim : SimState)
    (dt m1 m2 m3 : ℝ) :
    simTransferError 0 n1 n2 n3 s = s ∧
    (timerCallback sim dt n1 n2 n3).1.v = (timerCallback sim dt m1 m2 m3).1.v ∧
    (timerCallback sim dt n1 n2 n3).1.w = (timerCallback sim dt m1 m2 m3).1.w ∧
    (timerCallback sim dt n1 n2 n3).1.cmd = sim.cmd ∧
    (timerCallback sim dt n1 n2 n3).1.landmarks = sim.landmarks ∧
    (timerCallback sim dt n1 n2 n3).1.error_coeff = sim.error_coeff := by
  refine ⟨?_, rfl, rfl, rfl, rfl, rfl⟩
  cases s
  simp [simTransferError]

/-- setRPY with roll and pitch zero is the yaw-only quaternion. -/
theorem setRPY_yaw_only (θ : ℝ) :
    setRPY 0 0 θ = ⟨0, 0, Real.sin (θ / 2), Real.cos (θ / 2)⟩ := by
  have h : θ * 0.5 = θ / 2 := by norm_num [mul_one_div]
  simp [setRPY, h]

/-- The rotation basis built from the yaw-only quaternion is the planar
rotation by the yaw angle. -/
theorem rot_of_yaw (θ : ℝ) :
    Mat3.setRotation (setRPY 0 0 θ) =
      ⟨Real.cos θ, -Real.sin θ, 0, Real.sin θ, Real.cos θ, 0, 0, 0, 1⟩ := by
  rw [setRPY_yaw_only]
  have hs := Real.sin_sq_add_cos_sq (θ / 2)
  have hd : Quat.length2 ⟨0, 0, Real.sin (θ / 2), Real.cos (θ / 2)⟩ = 1 := by
    simp only [Quat.length2]
    nlinarith [hs]
  have hcos : Real.cos θ = 1 - 2 * Real.sin (θ / 2) ^ 2 := by
    have h2 := Real.cos_two_mul (θ / 2)
    have h3 : 2 * (θ / 2) = θ := by ring
    rw [h3] at h2
    nlinarith [hs]
  have hsin : Real.sin θ = 2 * Real.sin (θ / 2) * Real.cos (θ / 2) := by
    have h2 := Real.sin_two_mul (θ / 2)
    have h3 : 2 * (θ / 2) = θ := by ring
    rw [h3] at h2
    linarith
  simp only [Mat3.setRotation, hd]
  norm_num [Mat3.mk.injEq]
  and_intros <;> nlinarith [hs, hcos, hsin]

/-- The translation component of inverse(robot transform) * landmark
transform, in closed form. -/
theorem relPoint_general (lid : String) (xr yr yawr xl yl yawl : ℝ) :
    relPoint (convertToPose xr yr yawr) ⟨lid, xl, yl, yawl⟩ =
      (Real.cos yawr * (xl - xr) + Real.sin yawr * (yl - yr),
       -Real.sin yawr * (xl - xr) + Real.cos yawr * (yl - yr)) := by
  simp only [relPoint, convertToTransform, convertToPose, rot_of_yaw,
    Transform.inverse, Transform.mul, Mat3.transpose, Mat3.mulVec, Mat3.mul,
    Vec3.add, Vec3.neg, Prod.mk.injEq]
  constructor <;> ring

/-- C2: the landmark point of the relative path is the translation part of
inverse(ToTransform(robot)) * ToTransform(landmark), which is the landmark
position rotated into the robot local frame; in particular robot (0,0,0)
with landmark (3,4) gives (3,4) and robot (1,1,pi/2) with landmark (1,2)
gives (1,0). -/
theorem relPoint_rotates_into_robot_frame (lid : String)
    (xr yr yawr xl yl yawl : ℝ) :
    relPoint (convertToPose xr yr yawr) ⟨lid, xl, yl, yawl⟩ =
      (Real.cos yawr * (xl - xr) + Real.sin yawr * (yl - yr),
       -Real.sin yawr * (xl - xr) + Real.cos yawr * (yl - yr)) ∧
    relPoint (convertToPose 0 0 0) ⟨"l1", 3, 4, 0⟩ = (3, 4) ∧
    relPoint (convertToPose 1 1 (π / 2)) ⟨"l2", 1, 2, 0⟩ = (1, 0) := by
  refine ⟨relPoint_general lid xr yr yawr xl yl yawl, ?_, ?_⟩
  · rw [relPoint_general]
    norm_num
  · rw [relPoint_general]
    norm_num [Real.cos_pi_div_two, Real.sin_pi_div_two]

/-- C7: with N landmarks in the registry the relative path has exactly 2N
points, in registry order: point 2i is the robot origin (0,0) and point
2i+1 is landmark i expressed in the robot frame. -/
theorem buildPath_spec (robot : Pose) (lms : List Landmark) :
    (buildPath robot lms).length = 2 * lms.length ∧
    ∀ i, i < lms.length →
      (buildPath robot lms)[2 * i]? = some ((0 : ℝ), (0 : ℝ)) ∧
      (buildPath robot lms)[2 * i + 1]? = (lms[i]?).map (relPoint robot) := by
  constructor
  · induction lms with
    | nil => simp [buildPath]
    | cons lm rest ih =>
      simp only [buildPath, List.length_cons]
      omega
  · induction lms with
    | nil => exact fun i hi => absurd hi (Nat.not_lt_zero i)
    | cons lm rest ih =>
      intro i hi
      simp only [List.length_cons] at hi
      match i with
      | 0 => exact ⟨by simp [buildPath], by simp [buildPath]⟩
      | Nat.succ j =>
        obtain ⟨ha, hb⟩ := ih j (by omega)
        have h2 : 2 * (j + 1) = 2 * j + 1 + 1 := by ring
        have h3 : 2 * (j + 1) + 1 = 2 * j + 1 + 1 + 1 := by ring
        constructor
        · rw [h2]
          simpa only [buildPath, List.getElem?_cons_succ] using ha
        · rw [h3]
          simpa only [buildPath, List.getElem?_cons_succ] using hb

/-- Witness for C7 at one concrete landmark and index 0. -/
theorem buildPath_spec_witness :
    0 < ([⟨"l1", 3, 4, 0⟩] : List Landmark).length ∧
    ((buildPath (convertToPose 0 0 0) [⟨"l1", 3, 4, 0⟩])[2 * 0]? =
        some ((0 : ℝ), (0 : ℝ)) ∧
      (buildPath (convertToPose 0 0 0) [⟨"l1", 3, 4, 0⟩])[2 * 0 + 1]? =
        (([⟨"l1", 3, 4, 0⟩] : List Landmark)[0]?).map
          (relPoint (convertToPose 0 0 0))) :=
  ⟨by simp,
   (buildPath_spec (convertToPose 0 0 0) [⟨"l1", 3, 4, 0⟩]).2 0 (by simp)⟩

/-- C9: the pose reset handler overwrites x and y of the State with the
message position and yaw with the roll-pitch-yaw extraction of the message
quaternion, and leaves the tracked velocity, the commanded velocity and
the landmark registry unchanged. -/
theorem callbackInitialpose_effect (sim : SimState) (px py : ℝ) (q : Quat) :
    (callbackInitialpose sim px py q).state.x = px ∧
    (callbackInitialpose sim px py q).state.y = py ∧
    (callbackInitialpose sim px py q).state.yaw =
      (getRPY (Mat3.setRotation q)).2.2 ∧
    (callbackInitialpose sim px py q).v = sim.v ∧
    (callbackInitialpose sim px py q).w = sim.w ∧
    (callbackInitialpose sim px py q).cmd = sim.cmd ∧
    (callbackInitialpose sim px py q).landmarks = sim.landmarks ∧
    (callbackInitialpose sim px py q).error_coeff = sim.error_coeff :=
  ⟨rfl, rfl, rfl, rfl, rfl, rfl, rfl, rfl⟩

/-- C6: under a constant commanded velocity, a fixed dt with
0 <= 1.0 * dt < 1 and an initial tracked velocity below the command, the
tracked velocity over repeated ticks is monotonically non-decreasing and
never exceeds the command; with command 2, dt = 1/10 and initial velocity
0 the tracked velocity after one tick is 1/5. -/
theorem velocity_monotone_no_overshoot (sim : SimState) (dt : ℝ)
    (noise : ℕ → ℝ × ℝ × ℝ) (n : ℕ)
    (h0 : 0 ≤ 1.0 * dt) (h1 : 1.0 * dt < 1) (hv : sim.v ≤ sim.cmd.v) :
    ((simIter dt noise sim n).v ≤ (simIter dt noise sim (n + 1)).v ∧
      (simIter dt noise sim n).v ≤ sim.cmd.v) ∧
    (simIter (1 / 10) (fun _ => (0, 0, 0))
        { state := ⟨0, 0, 0⟩, v := 0, w := 0, cmd := ⟨2, 0⟩,
          landmarks := [], error_coeff := 0 } 1).v = 1 / 5 := by
  have hd0 : 0 ≤ dt := by nlinarith
  have hd1 : dt < 1 := by nlinarith
  have hle := simIter_v_le dt noise sim hd0 hd1 hv n
  refine ⟨⟨?_, hle⟩, ?_⟩
  · rw [simIter_v_succ]
    nlinarith [hle]
  · simp only [simIter]
    rw [timerCallback_v_closed]
    norm_num

/-- Witness for C6 at command 2, dt = 1/10, initial velocity 0, n = 3. -/
theorem velocity_monotone_no_overshoot_witness :
    (0 ≤ 1.0 * ((1 : ℝ) / 10) ∧ 1.0 * ((1 : ℝ) / 10) < 1 ∧
      ({ state := ⟨0, 0, 0⟩, v := 0, w := 0, cmd := ⟨2, 0⟩,
          landmarks := [], error_coeff := 0 } : SimState).v ≤
        ({ state := ⟨0, 0, 0⟩, v := 0, w := 0, cmd := ⟨2, 0⟩,
            landmarks := [], error_coeff := 0 } : SimState).cmd.v) ∧
    (((simIter (1 / 10) (fun _ => (0, 0, 0))
          { state := ⟨0, 0, 0⟩, v := 0, w := 0, cmd := ⟨2, 0⟩,
            landmarks := [], error_coeff := 0 } 3).v ≤
        (simIter (1 / 10) (fun _ => (0, 0, 0))
          { state := ⟨0, 0, 0⟩, v := 0, w := 0, cmd := ⟨2, 0⟩,
            landmarks := [], error_coeff := 0 } (3 + 1)).v ∧
      (simIter (1 / 10) (fun _ => (0, 0, 0))
          { state := ⟨0, 0, 0⟩, v := 0, w := 0, cmd := ⟨2, 0⟩,
            landmarks := [], error_coeff := 0 } 3).v ≤
        ({ state := ⟨0, 0, 0⟩, v := 0, w := 0, cmd := ⟨2, 0⟩,
            landmarks := [], error_coeff := 0 } : SimState).cmd.v) ∧
      (simIter (1 / 10) (fun _ => (0, 0, 0))
          { state := ⟨0, 0, 0⟩, v := 0, w := 0, cmd := ⟨2, 0⟩,
            landmarks := [], error_coeff := 0 } 1).v = 1 / 5) :=
  ⟨⟨by norm_num, by norm_num, by norm_num⟩,
    velocity_monotone_no_overshoot
      { state := ⟨0, 0, 0⟩, v := 0, w := 0, cmd := ⟨2, 0⟩,
        landmarks := [], error_coeff := 0 }
      (1 / 10) (fun _ => (0, 0, 0)) 3 (by norm_num) (by norm_num)
      (by norm_num)⟩

/-- atan2 of (0, 1) is zero. -/
theorem atan2_zero_one : atan2 0 1 = 0 := by
  unfold atan2
  have h : (⟨1, 0⟩ : ℂ) = 1 := by
    apply Complex.ext <;> simp
  rw [h, Complex.arg_one]

/-- atan2 recovers an angle of the half-open interval (-pi, pi] from its
sine and cosine. -/
theorem atan2_sin_cos (θ : ℝ) (h1 : -π < θ) (h2 : θ ≤ π) :
    atan2 (Real.sin θ) (Real.cos θ) = θ := by
  unfold atan2
  rw [Complex.mk_eq_add_mul_I, Complex.ofReal_cos, Complex.ofReal_sin]
  exact Complex.arg_cos_add_sin_mul_I ⟨h1, h2⟩

/-- getRPY of the rotation basis of a yaw-only quaternion recovers the yaw
exactly on (-pi, pi], with zero roll and pitch. -/
theorem getRPY_yaw_matrix (θ : ℝ) (h1 : -π < θ) (h2 : θ ≤ π) :
    getRPY (Mat3.setRotation (setRPY 0 0 θ)) = (0, 0, θ) := by
  rw [rot_of_yaw]
  simp only [getRPY]
  rw [if_neg (by norm_num)]
  simp only [Real.arcsin_zero, neg_zero, Real.cos_zero, div_one,
    Prod.mk.injEq]
  exact ⟨atan2_zero_one, trivial, atan2_sin_cos θ h1 h2⟩

/-- C10: converting a State with yaw in (-pi, pi] to a pose and feeding
that pose through the pose reset handler restores exactly the same x, y and
yaw. -/
theorem reset_roundtrip (sim : SimState) (x y yaw : ℝ)
    (h1 : -π < yaw) (h2 : yaw ≤ π) :
    (callbackInitialpose sim (convertToPose x y yaw).x
        (convertToPose x y yaw).y (convertToPose x y yaw).ori).state =
      ⟨x, y, yaw⟩ := by
  show (callbackInitialpose sim x y (setRPY 0 0 yaw)).state = ⟨x, y, yaw⟩
  simp only [callbackInitialpose]
  rw [getRPY_yaw_matrix yaw h1 h2]

/-- C4: the claim fails on the code.  The pose reset handler takes the
mutex m_, but the timer callback accesses state_ without ever acquiring
it, so the reset is not mutually exclusive with the tick: there is a valid
interleaving in which the tick reads a State with the x already written by
the reset but the y and yaw still pre-reset, a torn mix.  Concretely, from
State (0,0,0), with an identity tick (velocities and noise zero) and a
reset writing (1,2,5), scheduling the whole tick between the x write and
the y write of the reset makes the tick observe (1,0,0), which is neither
the pre-reset State (0,0,0) nor the post-reset State (1,2,5). -/
theorem reset_tick_torn_interleaving :
    ¬ NoTornRead ⟨0, 0, 0⟩ 0 0 1 0 0 0 0 1 2 5 := by
  intro h
  have hrun : run
      [ThreadId.reset, ThreadId.reset, ThreadId.tick, ThreadId.tick,
       ThreadId.tick, ThreadId.tick, ThreadId.tick, ThreadId.tick,
       ThreadId.tick, ThreadId.reset, ThreadId.reset, ThreadId.reset]
      (initConfig ⟨0, 0, 0⟩ 0 0 1 0 0 0 0 1 2 5) =
      some { shared := ⟨1, 2, 5⟩, owner := none, observed := some ⟨1, 0, 0⟩,
             tickProg := [], resetProg := [] } := by
    simp [run, step, initConfig, tickSteps, resetSteps, applyStep]
  have h3 := h _ _ hrun rfl rfl ⟨1, 0, 0⟩ rfl
  rcases h3 with h4 | h4 <;> simp [State.mk.injEq] at h4

/-- Witness for C10 at pose (1, 2, 0). -/
theorem reset_roundtrip_witness :
    (-π < (0 : ℝ) ∧ (0 : ℝ) ≤ π) ∧
    (callbackInitialpose
        { state := ⟨0, 0, 0⟩, v := 0, w := 0, cmd := ⟨0, 0⟩,
          landmarks := [], error_coeff := 0 }
        (convertToPose 1 2 0).x (convertToPose 1 2 0).y
        (convertToPose 1 2 0).ori).state = ⟨1, 2, 0⟩ :=
  ⟨⟨by linarith [Real.pi_pos], Real.pi_pos.le⟩,
    reset_roundtrip
      { state := ⟨0, 0, 0⟩, v := 0, w := 0, cmd := ⟨0, 0⟩,
        landmarks := [], error_coeff := 0 }
      1 2 0 (by linarith [Real.pi_pos]) Real.pi_pos.le⟩

end NavSim
